import Mathlib

/-!
Shallow embedding of the scheduling core of the lensora-api repository
(`utils/availabilityChecker.js`, `controllers/bookingController.js`,
`controllers/adminController.js`, `models/Booking.js`).

Dates are modelled as calendar-day indices (days since 1970-01-01, which was
a Thursday); times of day as minutes since midnight (the source stores
`HH:mm` strings and compares them through moment.js, which is order-isomorphic
to minutes-since-midnight on a single day).
-/

namespace Lensora

/-- The seven weekdays, as produced by `moment.format('dddd').toLowerCase()`. -/
inductive Weekday
  | monday | tuesday | wednesday | thursday | friday | saturday | sunday
deriving DecidableEq

/-- A calendar day, already normalized by `moment(requestedDate).startOf('day')`:
`epochDay` counts days since 1970-01-01. -/
structure DayDate where
  epochDay : Nat
deriving DecidableEq

/-- Embeds `moment(date).format('dddd')`: 1970-01-01 (epoch day 0) was a Thursday. -/
def dayOfWeek (d : DayDate) : Weekday :=
  match d.epochDay % 7 with
  | 0 => .thursday
  | 1 => .friday
  | 2 => .saturday
  | 3 => .sunday
  | 4 => .monday
  | 5 => .tuesday
  | _ => .wednesday

/-- One weekday's entry of `provider.availability.workingHours`:
`{available, start, end}` with times in minutes since midnight
(`stop` embeds the source's `end`, a Lean keyword). -/
structure WorkingHours where
  available : Bool
  start : Nat
  stop : Nat
deriving DecidableEq

/-- Embeds `provider.availability.workingHours`: one optional entry per weekday
(`workingHours[dayOfWeek]` may be absent). -/
structure WorkingHoursPolicy where
  monday : Option WorkingHours
  tuesday : Option WorkingHours
  wednesday : Option WorkingHours
  thursday : Option WorkingHours
  friday : Option WorkingHours
  saturday : Option WorkingHours
  sunday : Option WorkingHours
deriving DecidableEq

/-- The property access `provider.availability.workingHours[dayOfWeek]`. -/
def WorkingHoursPolicy.lookup (p : WorkingHoursPolicy) : Weekday → Option WorkingHours
  | .monday => p.monday
  | .tuesday => p.tuesday
  | .wednesday => p.wednesday
  | .thursday => p.thursday
  | .friday => p.friday
  | .saturday => p.saturday
  | .sunday => p.sunday

/-- Embeds `provider.availability`: weekly working hours plus blackout dates. -/
structure ProviderAvailability where
  workingHours : WorkingHoursPolicy
  blackoutDates : List DayDate
deriving DecidableEq

/-- A provider (photographer or videographer): roster of team-member ids and
an availability policy (the only provider fields the scheduling code reads). -/
structure Provider where
  id : Nat
  teamMembers : List Nat
  availability : ProviderAvailability
deriving DecidableEq

/-- The `status` enum of `models/Booking.js`. -/
inductive BookingStatus
  | pending | confirmed | in_progress | completed | cancelled | disputed
deriving DecidableEq

/-- A booking record: the fields of `models/Booking.js` the scheduling code
reads and writes. `teamMembers` and `equipment` hold the ids of
`teamAssignment.teamMembers[].member` and `teamAssignment.equipment[].item`. -/
structure Booking where
  id : Nat
  provider : Nat
  client : Nat
  date : DayDate
  startTime : Nat
  endTime : Nat
  status : BookingStatus
  teamMembers : List Nat
  equipment : List Nat
deriving DecidableEq

/-- The `reason` strings returned by `calculateAvailability`:
`notAvailableOnThisDay` is the string `'Not available on this day'`
(the spec's `day_unavailable`), `blackoutDate` is `'Blackout date'`
(the spec's `blackout_date`), `noTeamMembersAvailable` is
`'No team members available'` (the spec's `insufficient_capacity`),
`errorCalculating` is `'Error calculating availability'`. -/
inductive Reason
  | notAvailableOnThisDay
  | blackoutDate
  | noTeamMembersAvailable
  | errorCalculating
deriving DecidableEq

/-- The `capacity` object of the availability result.  `available` is an `Int`
because the source computes `Math.max(0, total - booked)` over possibly
negative `total - booked`. -/
structure Capacity where
  total : Nat
  booked : Nat
  available : Int
deriving DecidableEq

/-- The result object of `calculateAvailability`.  `bookedSlots` keeps the
`(start, end)` minute pairs of that day's confirmed/in-progress bookings. -/
structure AvailabilityResult where
  available : Bool
  reason : Option Reason
  workingHours : Option WorkingHours
  bookedSlots : List (Nat × Nat)
  capacity : Option Capacity
deriving DecidableEq

/-- Embeds the query condition `status: { $in: ['confirmed', 'in_progress'] }`. -/
def isCommittedStatus (b : Booking) : Bool :=
  b.status == .confirmed || b.status == .in_progress

/-- The `Booking.find` query of `calculateAvailability`: this provider's
bookings on the requested calendar day with status confirmed/in-progress. -/
def bookingsForProviderOnDate (store : List Booking) (pid : Nat) (date : DayDate) :
    List Booking :=
  store.filter fun b => b.provider == pid && b.date == date && isCommittedStatus b

/-- Embeds `booking.teamAssignment.teamMembers?.length || 1`: the number of team
members a booking counts as occupying; a missing or empty assignment list
counts as 1 (JavaScript `0 || 1 = 1`). -/
def bookedWeight (b : Booking) : Nat :=
  if b.teamMembers.length = 0 then 1 else b.teamMembers.length

/-- Embeds `calculateAvailability(provider, requestedDate, duration = 4)` of
`utils/availabilityChecker.js`, with the booking store passed explicitly
(the source reads it through `Booking.find`).  NB the source checks the
weekday working hours first and blackout dates second, and ignores
`duration` entirely. -/
def calculateAvailability (provider : Provider) (store : List Booking)
    (requestedDate : DayDate) (_duration : Nat := 4) : AvailabilityResult :=
  let existingBookings := bookingsForProviderOnDate store provider.id requestedDate
  match provider.availability.workingHours.lookup (dayOfWeek requestedDate) with
  | none =>
      { available := false, reason := some .notAvailableOnThisDay,
        workingHours := none, bookedSlots := [], capacity := none }
  | some workingHours =>
      if !workingHours.available then
        { available := false, reason := some .notAvailableOnThisDay,
          workingHours := none, bookedSlots := [], capacity := none }
      else if provider.availability.blackoutDates.any (· == requestedDate) then
        { available := false, reason := some .blackoutDate,
          workingHours := some workingHours, bookedSlots := [], capacity := none }
      else
        let bookedSlots := existingBookings.map fun b => (b.startTime, b.endTime)
        let totalTeamMembers := provider.teamMembers.length
        let bookedTeamMembers :=
          existingBookings.foldl (fun total b => total + bookedWeight b) 0
        let availableTeamMembers : Int :=
          max 0 ((totalTeamMembers : Int) - (bookedTeamMembers : Int))
        { available := decide (0 < availableTeamMembers),
          reason := if 0 < availableTeamMembers then none
                    else some .noTeamMembersAvailable,
          workingHours := some workingHours,
          bookedSlots := bookedSlots,
          capacity := some { total := totalTeamMembers, booked := bookedTeamMembers,
                             available := availableTeamMembers } }

/-- The overlap test inlined at line 109 of `utils/availabilityChecker.js`:
`currentSlot.isBefore(bookedEnd) && slotEnd.isAfter(bookedStart)`,
i.e. half-open-interval overlap `startA < endB && startB < endA`. -/
def intervalsOverlap (startA endA startB endB : Nat) : Bool :=
  startA < endB && startB < endA

/-- The `while` loop of `findAvailableSlots`: starting at `currentSlot`, step
in 1-hour (60-minute) increments while the candidate of length
`slotDurationMin` minutes still ends by `workEnd`; emit the candidates that
conflict with no booked slot. -/
def slotLoop (slotDurationMin workEnd : Nat) (bookedSlots : List (Nat × Nat))
    (currentSlot : Nat) : List (Nat × Nat) :=
  if h : currentSlot + slotDurationMin ≤ workEnd then
    if bookedSlots.any fun bs =>
        intervalsOverlap currentSlot (currentSlot + slotDurationMin) bs.1 bs.2 then
      slotLoop slotDurationMin workEnd bookedSlots (currentSlot + 60)
    else
      (currentSlot, currentSlot + slotDurationMin) ::
        slotLoop slotDurationMin workEnd bookedSlots (currentSlot + 60)
  else []
termination_by workEnd + 1 - currentSlot
decreasing_by all_goals omega

/-- Embeds `findAvailableSlots(provider, date, duration)` of
`utils/availabilityChecker.js`: returns `[]` when the availability check
fails or reports no working hours; otherwise walks hourly candidate starts
within the working-hours window.  `if duration = 0 then 4 else duration`
embeds `parseInt(duration) || 4`. -/
def findAvailableSlots (provider : Provider) (store : List Booking) (date : DayDate)
    (duration : Nat) : List (Nat × Nat) :=
  let availability := calculateAvailability provider store date duration
  if !availability.available then []
  else
    match availability.workingHours with
    | none => []
    | some wh =>
        let slotDuration := if duration = 0 then 4 else duration
        slotLoop (60 * slotDuration) wh.stop availability.bookedSlots wh.start

/-- Embeds `updateBookingStatus` of `controllers/bookingController.js`: finds the
booking by id and owning provider and unconditionally applies the requested
`status`; a supplied `teamAssignment` is object-spread over the existing one,
so a supplied `teamMembers` (resp. `equipment`) list replaces the old one and
an omitted one is kept.  No transition validation and no conflict check is
performed.  A booking that does not match is left unchanged (HTTP 404). -/
def updateBookingStatus (store : List Booking) (providerId bookingId : Nat)
    (status : BookingStatus) (teamMembers equipment : Option (List Nat)) :
    List Booking :=
  store.map fun b =>
    if b.id == bookingId && b.provider == providerId then
      { b with status := status,
               teamMembers := teamMembers.getD b.teamMembers,
               equipment := equipment.getD b.equipment }
    else b

/-- The admin `updateBookingStatus` of `controllers/adminController.js`:
`Booking.findByIdAndUpdate(id, { status })` — applies any requested status to
any booking, with no transition validation. -/
def adminUpdateBookingStatus (store : List Booking) (bookingId : Nat)
    (status : BookingStatus) : List Booking :=
  store.map fun b => if b.id == bookingId then { b with status := status } else b

/-- Embeds `cancelBooking` of `controllers/bookingController.js`: refuses (HTTP 400)
when the booking is already `completed` or `cancelled`; otherwise sets the
status to `cancelled`. -/
def cancelBooking (store : List Booking) (bookingId : Nat) : List Booking :=
  store.map fun b =>
    if b.id == bookingId && !(b.status == .completed || b.status == .cancelled) then
      { b with status := .cancelled }
    else b

/-- Views `calculateAvailability` as an operation on the booking store: it
only reads the store (`Booking.find`) and performs no write, so the state
component is returned unchanged. -/
def checkAvailabilityOp (provider : Provider) (date : DayDate) (duration : Nat)
    (store : List Booking) : List Booking × AvailabilityResult :=
  (store, calculateAvailability provider store date duration)

/-! Spec-side definitions, written from the claims' words, to be compared
with the source functions above. -/

/-- Two bookings' `[date,startTime,endTime]` intervals overlap: same calendar
day and half-open time-interval overlap. -/
def bookingsOverlap (b1 b2 : Booking) : Bool :=
  b1.date == b2.date &&
    intervalsOverlap b1.startTime b1.endTime b2.startTime b2.endTime

/-- Two bookings share an assigned TeamMember or Equipment unit. -/
def sharesUnit (b1 b2 : Booking) : Bool :=
  b1.teamMembers.any (b2.teamMembers.contains ·) ||
    b1.equipment.any (b2.equipment.contains ·)

/-- The claimed invariant: no TeamMember or Equipment unit is assigned to two
distinct confirmed/in-progress bookings of the same provider whose
`[date,startTime,endTime]` intervals overlap. -/
def assignmentInvariant (store : List Booking) : Bool :=
  store.all fun b1 => store.all fun b2 =>
    !(b1.id != b2.id && b1.provider == b2.provider &&
      isCommittedStatus b1 && isCommittedStatus b2 &&
      bookingsOverlap b1 b2 && sharesUnit b1 b2)

/-- The claim's notion of a committed unit: the unit id appears in the
`teamAssignment` of some confirmed/in-progress booking of this provider on
this date. -/
def specCommittedUnit (store : List Booking) (pid : Nat) (date : DayDate)
    (unit : Nat) : Bool :=
  store.any fun b =>
    b.provider == pid && b.date == date && isCommittedStatus b &&
      b.teamMembers.contains unit

/-- The claim's `freeUnits`: the number of roster units not committed on the
date in the claim's sense. -/
def specFreeUnits (provider : Provider) (store : List Booking) (date : DayDate) :
    Nat :=
  (provider.teamMembers.filter fun u =>
    !specCommittedUnit store provider.id date u).length

/-- The booked count the source actually uses, written independently of the
source's fold: the per-booking weights (`length || 1`) of that day's
confirmed/in-progress bookings, summed. -/
def amendedBookedCount (provider : Provider) (store : List Booking)
    (date : DayDate) : Nat :=
  ((bookingsForProviderOnDate store provider.id date).map bookedWeight).sum

/-- The free-unit count of the amended capacity claim:
`max(0, roster size - amendedBookedCount)` over the integers. -/
def amendedFreeUnits (provider : Provider) (store : List Booking)
    (date : DayDate) : Int :=
  max 0 ((provider.teamMembers.length : Int) -
    (amendedBookedCount provider store date : Int))

/-- The slot-validity condition of claim C5, written from the claim's words:
the start lies on an hour boundary stepped from the working-hours start, the
end is start plus the duration, the slot fits within working hours, and it
overlaps no booked interval. -/
def claimSlotValid (workStart workEnd slotDurationMin : Nat)
    (bookedSlots : List (Nat × Nat)) (s e : Nat) : Prop :=
  (∃ i, s = workStart + 60 * i) ∧ e = s + slotDurationMin ∧ e ≤ workEnd ∧
    ∀ bs ∈ bookedSlots, intervalsOverlap s e bs.1 bs.2 = false

/-! Concrete fixtures used by counterexamples and witnesses. -/

/-- Working hours 09:00–18:00, marked available. -/
def whMonday : WorkingHours := { available := true, start := 540, stop := 1080 }

/-- A weekly policy that only opens Mondays 09:00–18:00. -/
def mondayPolicy : WorkingHoursPolicy :=
  { monday := some whMonday, tuesday := none, wednesday := none, thursday := none,
    friday := none, saturday := none, sunday := none }

/-- Epoch day 4 = 1970-01-05, a Monday. -/
def dMon : DayDate := ⟨4⟩

/-- A provider with a single team member (id 7), open Mondays, no blackouts. -/
def prov1 : Provider :=
  { id := 1, teamMembers := [7],
    availability := { workingHours := mondayPolicy, blackoutDates := [] } }

/-- A store holding two bookings of provider 1 for the same Monday
10:00–12:00 window, both still in the schema-default `pending` status with
empty assignment lists: pending bookings impose no commitment, so the
assignment invariant holds here. -/
def c1State0 : List Booking :=
  [{ id := 1, provider := 1, client := 101, date := dMon, startTime := 600,
     endTime := 720, status := .pending, teamMembers := [], equipment := [] },
   { id := 2, provider := 1, client := 102, date := dMon, startTime := 600,
     endTime := 720, status := .pending, teamMembers := [], equipment := [] }]

/-- Both bookings then confirmed through `updateBookingStatus`, each assigning
the same sole team member 7. -/
def c1State2 : List Booking :=
  updateBookingStatus
    (updateBookingStatus c1State0 1 1 .confirmed (some [7]) none)
    1 2 .confirmed (some [7]) none

/-- A confirmed booking 10:00–12:00 already holding team member 7, next to a
pending booking for the same window. -/
def c2Store : List Booking :=
  [{ id := 1, provider := 1, client := 101, date := dMon, startTime := 600,
     endTime := 720, status := .confirmed, teamMembers := [7], equipment := [] },
   { id := 2, provider := 1, client := 102, date := dMon, startTime := 600,
     endTime := 720, status := .pending, teamMembers := [], equipment := [] }]

/-- A provider whose Monday is marked unavailable and whose blackout list
contains the Monday `dMon`: the date is both a blackout date and
weekday-ineligible. -/
def prov3 : Provider :=
  { id := 3, teamMembers := [7],
    availability :=
      { workingHours :=
          { monday := some { available := false, start := 540, stop := 1080 },
            tuesday := none, wednesday := none, thursday := none,
            friday := none, saturday := none, sunday := none },
        blackoutDates := [dMon] } }

/-- One confirmed full-day booking with an empty `teamAssignment.teamMembers`
list: no unit appears in any assignment, yet `length || 1` counts it as 1. -/
def c4Store : List Booking :=
  [{ id := 1, provider := 1, client := 101, date := dMon, startTime := 540,
     endTime := 1080, status := .confirmed, teamMembers := [], equipment := [] }]

/-- One confirmed booking 09:00–10:00 assigning the sole team member: it
exhausts date-level capacity although most of the day is free of bookings. -/
def c5Store : List Booking :=
  [{ id := 1, provider := 1, client := 101, date := dMon, startTime := 540,
     endTime := 600, status := .confirmed, teamMembers := [7], equipment := [] }]

/-- A single booking already in the terminal `completed` status. -/
def c6Store : List Booking :=
  [{ id := 1, provider := 1, client := 101, date := dMon, startTime := 600,
     endTime := 720, status := .completed, teamMembers := [], equipment := [] }]

/-- Two confirmed bookings assigning two team members each against a roster
of one: the summed booked count (4) exceeds the roster size (1). -/
def c10Store : List Booking :=
  [{ id := 1, provider := 1, client := 101, date := dMon, startTime := 540,
     endTime := 720, status := .confirmed, teamMembers := [21, 22], equipment := [] },
   { id := 2, provider := 1, client := 102, date := dMon, startTime := 720,
     endTime := 900, status := .confirmed, teamMembers := [23, 24], equipment := [] }]

/-! Theorems. -/

/-- Claim C1 (code_bug evaluation): a store holds two pending bookings of the
same provider for the same overlapping Monday 10:00–12:00 window, and both
are then confirmed through `updateBookingStatus` with the same sole team
member 7 assigned.  The initial state satisfies the claimed
at-most-one-overlapping-commitment invariant, and the reached state violates
it: `updateBookingStatus` applies status and `teamAssignment` with no guard,
so the status/assignment-changing operation does not preserve the
invariant. -/
theorem c1_invariant_not_preserved :
    assignmentInvariant c1State0 = true ∧ assignmentInvariant c1State2 = false := by
  decide

/-- Claim C2 (code_bug evaluation): confirming the pending booking 2 with team
member 7, who is already committed to the confirmed overlapping booking 1,
does not fail with any `AssignmentConflict` — `updateBookingStatus`
unconditionally commits the new status and assignment, producing a store that
violates the at-most-one-commitment invariant.  No `AssignmentConflict` error
exists anywhere in the source. -/
theorem c2_conflicting_assignment_commits :
    updateBookingStatus c2Store 1 2 .confirmed (some [7]) none =
      [{ id := 1, provider := 1, client := 101, date := dMon, startTime := 600,
         endTime := 720, status := .confirmed, teamMembers := [7], equipment := [] },
       { id := 2, provider := 1, client := 102, date := dMon, startTime := 600,
         endTime := 720, status := .confirmed, teamMembers := [7], equipment := [] }] ∧
      assignmentInvariant
        (updateBookingStatus c2Store 1 2 .confirmed (some [7]) none) = false := by
  decide

/-- Claim C6 (code_bug evaluation): a booking in the terminal `completed`
status is moved back to `pending` by both the provider-facing and the admin
`updateBookingStatus` — neither validates transitions — even though
`cancelBooking` in the very same controller treats `completed`/`cancelled`
as unchangeable. -/
theorem c6_completed_status_overwritten :
    (updateBookingStatus c6Store 1 1 .pending none none).map Booking.status =
        [.pending] ∧
      (adminUpdateBookingStatus c6Store 1 .pending).map Booking.status =
        [.pending] ∧
      cancelBooking c6Store 1 = c6Store := by
  decide

/-- Claim C3 counterexample: `dMon` is in `prov3`'s blackout set and its
weekday (Monday) is marked unavailable, yet `calculateAvailability` reports
the weekday reason `'Not available on this day'`, not `'Blackout date'` —
the weekday working-hours check runs first in the source. -/
theorem c3_blackout_precedence_counterexample :
    prov3.availability.blackoutDates.contains dMon = true ∧
      (prov3.availability.workingHours.lookup (dayOfWeek dMon)).elim true
        (fun wh => !wh.available) = true ∧
      (calculateAvailability prov3 [] dMon 4).reason =
        some .notAvailableOnThisDay ∧
      (calculateAvailability prov3 [] dMon 4).reason ≠ some .blackoutDate := by
  decide

/-- Claim C4 counterexample: with a roster of one member and a single
confirmed booking whose `teamAssignment.teamMembers` is empty, no unit
appears in any assignment (the claim's `freeUnits` is 1, so the claim
predicts `available = true`), yet the code counts the empty assignment as 1
occupied unit (`length || 1`) and reports unavailable. -/
theorem c4_capacity_semantics_counterexample :
    specFreeUnits prov1 c4Store dMon = 1 ∧
      (calculateAvailability prov1 c4Store dMon 4).available = false ∧
      (calculateAvailability prov1 c4Store dMon 4).reason =
        some .noTeamMembersAvailable := by
  decide

/-- Claim C7 (confirmed): the interval-overlap test of the slot loop is
symmetric, equals the half-open `startA < endB AND startB < endA` test, and
touching intervals never overlap. -/
theorem c7_intervalsOverlap_symm_touching (startA endA startB endB : Nat) :
    intervalsOverlap startA endA startB endB =
        intervalsOverlap startB endB startA endA ∧
      (intervalsOverlap startA endA startB endB = true ↔
        startA < endB ∧ startB < endA) ∧
      (endA = startB → intervalsOverlap startA endA startB endB = false) := by
  refine ⟨?_, ?_, ?_⟩
  · simp [intervalsOverlap, Bool.and_comm]
  · simp [intervalsOverlap]
  · intro h
    subst h
    simp [intervalsOverlap]

/-- Witness for C7 at the touching intervals `[1,3)` and `[3,5)`. -/
theorem c7_witness :
    (3 : Nat) = 3 ∧ intervalsOverlap 1 3 3 5 = false :=
  ⟨rfl, (c7_intervalsOverlap_symm_touching 1 3 3 5).2.2 rfl⟩

/-- Claim C8 (confirmed): `calculateAvailability`, as a store operation,
leaves the booking store unchanged, and a second call on the resulting store
with identical inputs returns the identical result. -/
theorem c8_checkAvailability_readonly_idempotent (provider : Provider)
    (date : DayDate) (duration : Nat) (store : List Booking) :
    (checkAvailabilityOp provider date duration store).1 = store ∧
      (checkAvailabilityOp provider date duration
          (checkAvailabilityOp provider date duration store).1).2 =
        (checkAvailabilityOp provider date duration store).2 :=
  ⟨rfl, rfl⟩

/-- One unrolling of `claimSlotValid`: a valid slot either starts exactly at
the current candidate start, or is a valid slot for the next hourly start. -/
lemma claimSlotValid_step (t wend dmin : Nat) (booked : List (Nat × Nat)) (s e : Nat)
    (h : t + dmin ≤ wend) :
    claimSlotValid t wend dmin booked s e ↔
      ((s = t ∧ e = t + dmin ∧
          ∀ bs ∈ booked, intervalsOverlap t (t + dmin) bs.1 bs.2 = false) ∨
        claimSlotValid (t + 60) wend dmin booked s e) := by
  unfold claimSlotValid
  constructor
  · rintro ⟨⟨i, rfl⟩, rfl, hle, hov⟩
    cases i with
    | zero =>
        left
        simp only [Nat.mul_zero, Nat.add_zero] at hov ⊢
        exact ⟨trivial, trivial, hov⟩
    | succ i =>
        right
        exact ⟨⟨i, by ring⟩, rfl, hle, hov⟩
  · rintro (⟨rfl, rfl, hov⟩ | ⟨⟨i, rfl⟩, rfl, hle, hov⟩)
    · exact ⟨⟨0, by omega⟩, rfl, h, hov⟩
    · exact ⟨⟨i + 1, by ring⟩, rfl, hle, hov⟩

/-- No slot starting at or after `t` is valid once `t + dmin` exceeds the
working-hours end. -/
lemma claimSlotValid_stop (t wend dmin : Nat) (booked : List (Nat × Nat)) (s e : Nat)
    (h : ¬ t + dmin ≤ wend) :
    ¬ claimSlotValid t wend dmin booked s e := by
  rintro ⟨⟨i, rfl⟩, rfl, hle, -⟩
  omega

/-- Membership characterization of the slot loop: it emits exactly the slots
that are valid in the sense of `claimSlotValid`. -/
lemma mem_slotLoop (dmin wend : Nat) (booked : List (Nat × Nat)) (s e : Nat) :
    ∀ t, ((s, e) ∈ slotLoop dmin wend booked t ↔
      claimSlotValid t wend dmin booked s e) := by
  have H : ∀ n t, wend + 1 - t ≤ n →
      ((s, e) ∈ slotLoop dmin wend booked t ↔
        claimSlotValid t wend dmin booked s e) := by
    intro n
    induction n with
    | zero =>
        intro t ht
        rw [slotLoop]
        have hstop : ¬ t + dmin ≤ wend := by omega
        simp only [dif_neg hstop, List.not_mem_nil, false_iff]
        exact claimSlotValid_stop t wend dmin booked s e hstop
    | succ n ih =>
        intro t ht
        rw [slotLoop]
        by_cases h : t + dmin ≤ wend
        · rw [dif_pos h, claimSlotValid_step t wend dmin booked s e h]
          have iht := ih (t + 60) (by omega)
          by_cases hc : (booked.any fun bs =>
              intervalsOverlap t (t + dmin) bs.1 bs.2) = true
          · rw [if_pos hc, iht]
            constructor
            · exact Or.inr
            · rintro (⟨rfl, rfl, hov⟩ | hv)
              · exfalso
                rcases List.any_eq_true.mp hc with ⟨bs, hbs, hbst⟩
                rw [hov bs hbs] at hbst
                exact Bool.noConfusion hbst
              · exact hv
          · rw [if_neg hc]
            have hnc : ∀ bs ∈ booked,
                intervalsOverlap t (t + dmin) bs.1 bs.2 = false := by
              simpa using hc
            rw [List.mem_cons, iht]
            constructor
            · rintro (hpe | hv)
              · exact Or.inl ⟨congrArg Prod.fst hpe, congrArg Prod.snd hpe, hnc⟩
              · exact Or.inr hv
            · rintro (⟨rfl, rfl, -⟩ | hv)
              · exact Or.inl rfl
              · exact Or.inr hv
        · rw [dif_neg h]
          simp only [List.not_mem_nil, false_iff]
          exact claimSlotValid_stop t wend dmin booked s e h
  intro t
  exact H (wend + 1 - t) t le_rfl

/-- Every slot the loop emits starts at or after the current candidate. -/
lemma slotLoop_start_le (dmin wend : Nat) (booked : List (Nat × Nat)) (t : Nat)
    (p : Nat × Nat) (hp : p ∈ slotLoop dmin wend booked t) : t ≤ p.1 := by
  have := (mem_slotLoop dmin wend booked p.1 p.2 t).mp hp
  rcases this with ⟨⟨i, hi⟩, -, -, -⟩
  omega

/-- The slot loop emits slots in strictly increasing start-time order. -/
lemma slotLoop_chain (dmin wend : Nat) (booked : List (Nat × Nat)) :
    ∀ t, List.Chain' (fun a b : Nat × Nat => a.1 < b.1)
      (slotLoop dmin wend booked t) := by
  have H : ∀ n t, wend + 1 - t ≤ n →
      List.Chain' (fun a b : Nat × Nat => a.1 < b.1) (slotLoop dmin wend booked t) := by
    intro n
    induction n with
    | zero =>
        intro t ht
        rw [slotLoop]
        have hstop : ¬ t + dmin ≤ wend := by omega
        rw [dif_neg hstop]
        exact List.chain'_nil
    | succ n ih =>
        intro t ht
        rw [slotLoop]
        by_cases h : t + dmin ≤ wend
        · rw [dif_pos h]
          by_cases hc : (booked.any fun bs =>
              intervalsOverlap t (t + dmin) bs.1 bs.2) = true
          · rw [if_pos hc]
            exact ih (t + 60) (by omega)
          · rw [if_neg hc, List.chain'_cons']
            refine ⟨?_, ih (t + 60) (by omega)⟩
            intro b hb
            have hbmem : b ∈ slotLoop dmin wend booked (t + 60) :=
              List.mem_of_mem_head? hb
            have hble := slotLoop_start_le dmin wend booked (t + 60) b hbmem
            exact Nat.lt_of_lt_of_le (by omega : t < t + 60) hble
        · rw [dif_neg h]
          exact List.chain'_nil
  intro t
  exact H (wend + 1 - t) t le_rfl

/-- Claim C5 (amended): when `calculateAvailability` reports the day available
(with some working hours), `findAvailableSlots` returns, in strictly
increasing start-time order, exactly the slots `(t, t + 60·duration)` for
candidate starts `t` stepping from the working-hours start in 1-hour
increments that fit within working hours and overlap no booked interval.
(Unamended, the claim fails: when the availability gate reports the day
unavailable the function returns `[]` regardless of the free slots — see the
counterexample.) -/
theorem c5_slot_generator_exact (provider : Provider) (store : List Booking)
    (date : DayDate) (duration : Nat) (wh : WorkingHours)
    (hav : (calculateAvailability provider store date duration).available = true)
    (hwh : (calculateAvailability provider store date duration).workingHours = some wh) :
    (∀ s e, ((s, e) ∈ findAvailableSlots provider store date duration ↔
        claimSlotValid wh.start wh.stop (60 * (if duration = 0 then 4 else duration))
          (calculateAvailability provider store date duration).bookedSlots s e)) ∧
      List.Chain' (fun a b : Nat × Nat => a.1 < b.1)
        (findAvailableSlots provider store date duration) := by
  have hfind : findAvailableSlots provider store date duration =
      slotLoop (60 * (if duration = 0 then 4 else duration)) wh.stop
        (calculateAvailability provider store date duration).bookedSlots wh.start := by
    simp [findAvailableSlots, hav, hwh]
  rw [hfind]
  exact ⟨fun s e => mem_slotLoop _ _ _ s e wh.start, slotLoop_chain _ _ _ wh.start⟩

/-- Witness for C5 at the Monday 09:00–18:00 provider with no bookings and
4-hour duration (the claim's basic-fit scenario). -/
theorem c5_witness :
    (calculateAvailability prov1 [] dMon 4).available = true ∧
      (calculateAvailability prov1 [] dMon 4).workingHours = some whMonday ∧
      ((∀ s e, ((s, e) ∈ findAvailableSlots prov1 [] dMon 4 ↔
          claimSlotValid whMonday.start whMonday.stop (60 * (if 4 = 0 then 4 else 4))
            (calculateAvailability prov1 [] dMon 4).bookedSlots s e)) ∧
        List.Chain' (fun a b : Nat × Nat => a.1 < b.1)
          (findAvailableSlots prov1 [] dMon 4)) :=
  ⟨by decide, by decide,
    c5_slot_generator_exact prov1 [] dMon 4 whMonday (by decide) (by decide)⟩

/-- Claim C5 counterexample: one confirmed 09:00–10:00 booking assigning the
sole team member exhausts date-level capacity, so `findAvailableSlots`
returns `[]`, although the slot 10:00–14:00 satisfies every condition of
the claim (fits within 09:00–18:00 working hours and overlaps no booked
interval) — the claim's slot list is not returned. -/
theorem c5_availability_gate_counterexample :
    findAvailableSlots prov1 c5Store dMon 4 = [] ∧
      (calculateAvailability prov1 c5Store dMon 4).available = false ∧
      claimSlotValid whMonday.start whMonday.stop 240 [(540, 600)] 600 840 :=
  ⟨by decide, by decide, ⟨1, by decide⟩, by decide, by decide, by decide⟩

/-- Folding the per-booking weights equals summing them. -/
lemma foldl_bookedWeight (l : List Booking) (n : Nat) :
    l.foldl (fun total b => total + bookedWeight b) n = n + (l.map bookedWeight).sum := by
  induction l generalizing n with
  | nil => simp
  | cons b l ih => simp [List.foldl_cons, List.map_cons, List.sum_cons, ih]; omega

/-- Claim C4 (amended): on a weekday-eligible non-blackout day, the verdict is
`available = (freeUnits > 0)` where `freeUnits = max(0, roster size − booked)`
and `booked` sums, per confirmed/in-progress booking of that provider/date,
the length of its `teamAssignment.teamMembers` list or 1 when that list is
empty — units are counted once per booking occurrence, not as distinct
units, and there is no `unitsRequired` parameter (it is fixed at 1).  When
unavailable the reason is the insufficient-capacity reason
(`'No team members available'`); when available the reason is null.
(Unamended, the claim fails: a booking with an empty assignment still
consumes one unit — see the counterexample.) -/
theorem c4_capacity_decision (provider : Provider) (store : List Booking)
    (date : DayDate) (duration : Nat) (wh : WorkingHours)
    (h1 : provider.availability.workingHours.lookup (dayOfWeek date) = some wh)
    (h2 : wh.available = true)
    (h3 : provider.availability.blackoutDates.any (· == date) = false) :
    (calculateAvailability provider store date duration).available =
        decide (0 < amendedFreeUnits provider store date) ∧
      ((calculateAvailability provider store date duration).available = false →
        (calculateAvailability provider store date duration).reason =
          some .noTeamMembersAvailable) ∧
      ((calculateAvailability provider store date duration).available = true →
        (calculateAvailability provider store date duration).reason = none) := by
  have hcalc : calculateAvailability provider store date duration =
      { available := decide (0 < amendedFreeUnits provider store date),
        reason := if 0 < amendedFreeUnits provider store date then none
                  else some .noTeamMembersAvailable,
        workingHours := some wh,
        bookedSlots := (bookingsForProviderOnDate store provider.id date).map
          fun b => (b.startTime, b.endTime),
        capacity := some { total := provider.teamMembers.length,
                           booked := amendedBookedCount provider store date,
                           available := amendedFreeUnits provider store date } } := by
    unfold calculateAvailability
    rw [h1]
    simp [h2, h3, amendedFreeUnits, amendedBookedCount, foldl_bookedWeight]
  refine ⟨by rw [hcalc], ?_, ?_⟩
  · intro hfalse
    rw [hcalc] at hfalse ⊢
    by_cases hp : 0 < amendedFreeUnits provider store date
    · simp [hp] at hfalse
    · simp [hp]
  · intro htrue
    rw [hcalc] at htrue ⊢
    by_cases hp : 0 < amendedFreeUnits provider store date
    · simp [hp]
    · simp [hp] at htrue

/-- Witness for the amended C4 at the empty-assignment store: the day is
eligible, the amended free-unit count is 0, and the result is unavailable
with the insufficient-capacity reason. -/
theorem c4_amended_witness :
    prov1.availability.workingHours.lookup (dayOfWeek dMon) = some whMonday ∧
      whMonday.available = true ∧
      prov1.availability.blackoutDates.any (· == dMon) = false ∧
      ((calculateAvailability prov1 c4Store dMon 4).available =
          decide (0 < amendedFreeUnits prov1 c4Store dMon) ∧
        ((calculateAvailability prov1 c4Store dMon 4).available = false →
          (calculateAvailability prov1 c4Store dMon 4).reason =
            some .noTeamMembersAvailable) ∧
        ((calculateAvailability prov1 c4Store dMon 4).available = true →
          (calculateAvailability prov1 c4Store dMon 4).reason = none)) :=
  ⟨by decide, by decide, by decide,
    c4_capacity_decision prov1 c4Store dMon 4 whMonday (by decide) (by decide) (by decide)⟩

/-- Claim C3 (amended): for every date whose weekday working-hours entry is
absent or marked unavailable — in particular every date that is both a
blackout date and weekday-ineligible — `calculateAvailability` reports the
weekday reason `'Not available on this day'`: the weekday working-hours
check is applied before the blackout check.  (Unamended, the claim fails:
such dates report the weekday reason, not `blackout_date` — see the
counterexample.) -/
theorem c3_weekday_check_precedes_blackout (provider : Provider) (store : List Booking)
    (date : DayDate) (duration : Nat)
    (h1 : (provider.availability.workingHours.lookup (dayOfWeek date)).elim true
        (fun wh => !wh.available) = true)
    (_h2 : provider.availability.blackoutDates.contains date = true) :
    (calculateAvailability provider store date duration).reason =
      some .notAvailableOnThisDay := by
  unfold calculateAvailability
  cases hl : provider.availability.workingHours.lookup (dayOfWeek date) with
  | none => simp
  | some wh =>
      rw [hl] at h1
      simp only [Option.elim] at h1
      simp [h1]

/-- Witness for the amended C3 at `prov3`: `dMon` is a blackout date and its
Monday is marked unavailable; the reason reported is the weekday one. -/
theorem c3_amended_witness :
    (prov3.availability.workingHours.lookup (dayOfWeek dMon)).elim true
        (fun wh => !wh.available) = true ∧
      prov3.availability.blackoutDates.contains dMon = true ∧
      (calculateAvailability prov3 [] dMon 4).reason = some .notAvailableOnThisDay :=
  ⟨by decide, by decide,
    c3_weekday_check_precedes_blackout prov3 [] dMon 4 (by decide) (by decide)⟩

/-- The availability result carries a null reason exactly when it reports
available. -/
lemma calculateAvailability_reason_spec (provider : Provider) (store : List Booking)
    (date : DayDate) (duration : Nat) :
    ((calculateAvailability provider store date duration).reason = none ↔
      (calculateAvailability provider store date duration).available = true) := by
  unfold calculateAvailability
  dsimp only
  split
  · simp
  · split
    · simp
    · split
      · simp
      · by_cases hp : (0 : Int) <
            max 0 ((provider.teamMembers.length : Int) -
              (((bookingsForProviderOnDate store provider.id date).foldl
                (fun total b => total + bookedWeight b) 0 : Nat) : Int))
        · simp [hp]
        · simp [hp]

/-- Claim C9 (confirmed): availability and slot queries return structured
results for policy ineligibility — whenever `calculateAvailability` reports
unavailable it carries a reason (and a null reason exactly when available),
and `findAvailableSlots` returns the empty list rather than an error.  Both
embedded functions are total: the source wraps each body in try/catch and
even maps infrastructure failures to a structured result. -/
theorem c9_structured_result (provider : Provider) (store : List Booking)
    (date : DayDate) (duration : Nat) :
    ((calculateAvailability provider store date duration).available = false →
        ((calculateAvailability provider store date duration).reason).isSome = true) ∧
      ((calculateAvailability provider store date duration).available = true →
        (calculateAvailability provider store date duration).reason = none) ∧
      ((calculateAvailability provider store date duration).available = false →
        findAvailableSlots provider store date duration = []) := by
  have h := calculateAvailability_reason_spec provider store date duration
  refine ⟨fun hf => ?_, fun ht => h.mpr ht, fun hf => ?_⟩
  · cases hr : (calculateAvailability provider store date duration).reason with
    | none =>
        have := h.mp hr
        rw [hf] at this
        exact Bool.noConfusion this
    | some r => rfl
  · simp [findAvailableSlots, hf]

/-- Witness for C9: an ineligible day (`prov3`) yields a reason and empty
slots; an available day (`prov1`, empty store) yields a null reason. -/
theorem c9_witness :
    ((calculateAvailability prov3 [] dMon 4).reason).isSome = true ∧
      findAvailableSlots prov3 [] dMon 4 = [] ∧
      (calculateAvailability prov1 [] dMon 4).reason = none :=
  ⟨(c9_structured_result prov3 [] dMon 4).1 (by decide),
    (c9_structured_result prov3 [] dMon 4).2.2 (by decide),
    (c9_structured_result prov1 [] dMon 4).2.1 (by decide)⟩

/-- Claim C10 (confirmed): whenever the availability result carries capacity
figures, the available count equals `max(0, total − booked)` over the
integers, hence is never negative — even when that day's bookings assign
more team members in total than the roster contains — and the total is the
roster size. -/
theorem c10_capacity_nonneg (provider : Provider) (store : List Booking)
    (date : DayDate) (duration : Nat) (c : Capacity)
    (h : (calculateAvailability provider store date duration).capacity = some c) :
    0 ≤ c.available ∧
      c.available = max 0 ((c.total : Int) - (c.booked : Int)) ∧
      c.total = provider.teamMembers.length := by
  unfold calculateAvailability at h
  dsimp only at h
  split at h
  · exact Option.noConfusion h
  · split at h
    · exact Option.noConfusion h
    · split at h
      · exact Option.noConfusion h
      · injection h with h'
        subst h'
        exact ⟨le_max_left _ _, rfl, rfl⟩

/-- Witness for C10 at an overbooked day: roster of 1, booked count 4,
available count clamped to 0 rather than −3. -/
theorem c10_witness :
    (calculateAvailability prov1 c10Store dMon 4).capacity = some ⟨1, 4, 0⟩ ∧
      (0 ≤ (Capacity.mk 1 4 0).available ∧
        (Capacity.mk 1 4 0).available =
          max 0 (((Capacity.mk 1 4 0).total : Int) - ((Capacity.mk 1 4 0).booked : Int)) ∧
        (Capacity.mk 1 4 0).total = prov1.teamMembers.length) :=
  ⟨by decide, c10_capacity_nonneg prov1 c10Store dMon 4 ⟨1, 4, 0⟩ (by decide)⟩

end Lensora
